import Mathlib

/-!
Verification of the via-team/backend route service against its
natural-language specification.

The JavaScript route handlers (`src/routes/routes.js` as mounted with
authentication, i.e. the POST `/`, GET `/`, GET `/:id` and POST `/:id/vote`
handlers) are shallowly embedded below.  JSON numbers that the code only
passes through or compares are modelled as `ℚ` (or `ℤ` for sequence numbers
and epoch-millisecond timestamps); the Haversine computation, which uses
transcendental functions, is modelled over `ℝ`.  Date-time strings are
modelled by their parsed epoch-millisecond values.  JavaScript `undefined` /
missing fields are modelled with `Option`, and the storage collaborator
(Supabase) is modelled by an explicit behaviour record: the embedding records
which storage calls the handler issues and with which payloads.
-/

namespace ViaBackend



/-- A raw GPS point as submitted in the `points` array of `POST /routes`:
`{seq, lat, lng, acc?, time}`.  `acc` is optional (`Option`), `time` is the
ISO timestamp string, passed through verbatim by the handler. -/
structure RawPoint where
  seq : Int
  lat : ℚ
  lng : ℚ
  acc : Option ℚ
  time : String
deriving DecidableEq, Inhabited

/-! ## Geodesic distance calculator (`calculateDistance` in the source) -/

/-- JavaScript `Math.atan2 y x`. -/
noncomputable def atan2 (y x : ℝ) : ℝ :=
  if 0 < x then Real.arctan (y / x)
  else if x < 0 then
    (if 0 ≤ y then Real.arctan (y / x) + Real.pi else Real.arctan (y / x) - Real.pi)
  else if 0 < y then Real.pi / 2
  else if y < 0 then -(Real.pi / 2)
  else 0

/-- One Haversine step of the source's `calculateDistance` loop:
radius `R = 6371000`, degree inputs converted to radians,
`a = sin²(Δlat/2) + cos lat1 · cos lat2 · sin²(Δlng/2)`,
`c = 2·atan2(√a, √(1−a))`, contribution `R·c`. -/
noncomputable def haversineStep (p1 p2 : RawPoint) : ℝ :=
  let R : ℝ := 6371000
  let lat1 := (p1.lat : ℝ) * Real.pi / 180
  let lat2 := (p2.lat : ℝ) * Real.pi / 180
  let deltaLat := ((p2.lat : ℝ) - (p1.lat : ℝ)) * Real.pi / 180
  let deltaLng := ((p2.lng : ℝ) - (p1.lng : ℝ)) * Real.pi / 180
  let a := Real.sin (deltaLat / 2) * Real.sin (deltaLat / 2) +
    Real.cos lat1 * Real.cos lat2 * Real.sin (deltaLng / 2) * Real.sin (deltaLng / 2)
  let c := 2 * atan2 (Real.sqrt a) (Real.sqrt (1 - a))
  R * c

/-- The source's `calculateDistance`: accumulates the Haversine contribution
of every consecutive pair (`for i in 0 .. points.length-2`). -/
noncomputable def calculateDistance : List RawPoint → ℝ
  | p1 :: p2 :: rest => haversineStep p1 p2 + calculateDistance (p2 :: rest)
  | _ => 0

/-- Modelled from the spec, §4.1: pairwise distance `d = R·c` with
`a = sin²(Δlat/2) + cos(lat1)·cos(lat2)·sin²(Δlng/2)`,
`c = 2·atan2(√a, √(1−a))`, `R = 6,371,000`, angles converted from degrees to
radians before use. -/
noncomputable def specPairDistance (p1 p2 : RawPoint) : ℝ :=
  let lat1 := (p1.lat : ℝ) * Real.pi / 180
  let lat2 := (p2.lat : ℝ) * Real.pi / 180
  let dLat := ((p2.lat : ℝ) - (p1.lat : ℝ)) * Real.pi / 180
  let dLng := ((p2.lng : ℝ) - (p1.lng : ℝ)) * Real.pi / 180
  let a := Real.sin (dLat / 2) * Real.sin (dLat / 2) +
    Real.cos lat1 * Real.cos lat2 * Real.sin (dLng / 2) * Real.sin (dLng / 2)
  let c := 2 * atan2 (Real.sqrt a) (Real.sqrt (1 - a))
  6371000 * c

/-- Modelled from the spec, §4.1: `totalDistance` sums the pairwise distances
over consecutive points in sequence order (zero for fewer than two points). -/
noncomputable def specTotalDistance (pts : List RawPoint) : ℝ :=
  ((pts.zip pts.tail).map fun q => specPairDistance q.1 q.2).sum

/-! ## `POST /routes` (route ingestion) -/

/-- The request body of `POST /routes`.  `start_time` / `end_time` carry the
epoch-millisecond value of the supplied date-time string (the handler only
uses them through `new Date(...)` subtraction and passes the original string
through to storage). -/
structure CreateRouteRequest where
  title : Option String
  description : Option String
  start_label : Option String
  end_label : Option String
  start_time : Option Int
  end_time : Option Int
  tags : Option (List String)
  points : Option (List RawPoint)
deriving DecidableEq

/-- JavaScript truthiness of an optional string: absent and `""` are falsy. -/
def strTruthy : Option String → Bool
  | none => false
  | some s => !(s == "")

/-- The handler's required-field check:
`!title || !start_label || !end_label || !start_time || !end_time || !points
|| points.length === 0`. -/
def missingRequiredFields (r : CreateRouteRequest) : Bool :=
  !(strTruthy r.title) || !(strTruthy r.start_label) || !(strTruthy r.end_label) ||
  !(r.start_time.isSome) || !(r.end_time.isSome) ||
  (match r.points with
   | none => true
   | some ps => ps.isEmpty)

/-- The handler's `points.sort((a, b) => a.seq - b.seq)` — JavaScript `Array.prototype.sort`
is a stable sort whose comparator here orders by `seq` ascending. -/
def sortPointsBySeq (pts : List RawPoint) : List RawPoint :=
  pts.mergeSort fun a b => a.seq ≤ b.seq

/-- The handler's `Math.floor((endDate - startDate) / 1000)` on epoch milliseconds. -/
def durationSecondsOf (startMs endMs : Int) : Int :=
  ⌊((endMs - startMs : Int) : ℚ) / 1000⌋

/-- JavaScript `x || null` on an optional number: `0` (falsy) becomes null. -/
def numOrNull : Option ℚ → Option ℚ
  | some x => if x = 0 then none else some x
  | none => none

/-- JavaScript `s || null` on an optional string: `""` (falsy) becomes null. -/
def strOrNull : Option String → Option String
  | some s => if s = "" then none else some s
  | none => none

/-- The argument record of the `create_route_with_geography` RPC call. -/
structure RouteRow where
  creator_id : Option String
  title : String
  description : Option String
  start_label : String
  end_label : String
  start_lng : ℚ
  start_lat : ℚ
  end_lng : ℚ
  end_lat : ℚ
  start_time : Int
  end_time : Int
  duration_seconds : Int
  distance_meters : ℝ

/-- A row of the `insert_route_points` RPC payload. -/
structure RoutePointRow where
  sequence : Int
  lng : ℚ
  lat : ℚ
  recorded_at : String
  accuracy_meters : Option ℚ
deriving DecidableEq

/-- The storage row built for one point: `accuracy_meters: point.acc || null`. -/
def toPointRow (p : RawPoint) : RoutePointRow :=
  { sequence := p.seq, lng := p.lng, lat := p.lat,
    recorded_at := p.time, accuracy_meters := numOrNull p.acc }

/-- The `routePointsToInsert` array: each sorted point mapped to its storage row. -/
def routePointsToInsert (pts : List RawPoint) : List RoutePointRow :=
  pts.map toPointRow

/-- Results the storage collaborator returns to the three write steps. -/
structure StorageBehavior where
  routeResult : Except String String
  pointsResult : Except String Unit
  tagsResult : Except String Unit

/-- The HTTP response of `POST /routes`. -/
inductive CreateRouteResponse
  | missingFields (required : List String)
  | routeInsertFailed (details : String)
  | pointsInsertFailed (details : String)
  | created (route_id : String)
deriving DecidableEq

/-- What the handler produced: the response plus the storage calls it issued
(absent when the handler returned before reaching that call). -/
structure CreateRouteOutcome where
  response : CreateRouteResponse
  routeCall : Option RouteRow
  pointsCall : Option (String × List RoutePointRow)
  tagsCall : Option (List (String × String))

/-- The `POST /routes` handler body (after `requireAuth` supplied `userId`). -/
noncomputable def createRoute (userId : String) (req : CreateRouteRequest)
    (st : StorageBehavior) : CreateRouteOutcome :=
  if missingRequiredFields req then
    { response := .missingFields
        ["title", "start_label", "end_label", "start_time", "end_time", "points"],
      routeCall := none, pointsCall := none, tagsCall := none }
  else
    let sortedPoints := sortPointsBySeq (req.points.getD [])
    let firstPoint := sortedPoints.headI
    let lastPoint := sortedPoints.getLastI
    let durationSeconds :=
      durationSecondsOf (req.start_time.getD 0) (req.end_time.getD 0)
    let distanceMeters := calculateDistance sortedPoints
    let row : RouteRow :=
      { creator_id := some userId,
        title := req.title.getD "",
        description := strOrNull req.description,
        start_label := req.start_label.getD "",
        end_label := req.end_label.getD "",
        start_lng := firstPoint.lng, start_lat := firstPoint.lat,
        end_lng := lastPoint.lng, end_lat := lastPoint.lat,
        start_time := req.start_time.getD 0, end_time := req.end_time.getD 0,
        duration_seconds := durationSeconds,
        distance_meters := distanceMeters }
    match st.routeResult with
    | .error e =>
      { response := .routeInsertFailed e,
        routeCall := some row, pointsCall := none, tagsCall := none }
    | .ok routeId =>
      let ptRows := routePointsToInsert sortedPoints
      match st.pointsResult with
      | .error e =>
        { response := .pointsInsertFailed e,
          routeCall := some row, pointsCall := some (routeId, ptRows),
          tagsCall := none }
      | .ok _ =>
        let tagsCall : Option (List (String × String)) :=
          match req.tags with
          | some ts => if ts.isEmpty then none else some (ts.map fun t => (routeId, t))
          | none => none
        { response := .created routeId,
          routeCall := some row, pointsCall := some (routeId, ptRows),
          tagsCall := tagsCall }

/-- Storage behaviour in which every write succeeds. -/
def okStorage : StorageBehavior :=
  { routeResult := .ok "rid-1", pointsResult := .ok (), tagsResult := .ok () }

/-- A request whose only point has latitude 200, far outside `[-90, 90]`. -/
def outOfRangeReq : CreateRouteRequest :=
  { title := some "t", description := none,
    start_label := some "a", end_label := some "b",
    start_time := some 0, end_time := some 60000, tags := none,
    points := some [{ seq := 1, lat := 200, lng := 0, acc := none, time := "x" }] }

/-- A request whose points array is empty. -/
def emptyPointsReq : CreateRouteRequest :=
  { title := some "t", description := none,
    start_label := some "a", end_label := some "b",
    start_time := some 0, end_time := some 60000, tags := none,
    points := some [] }

/-- Modelled from the claim's wording: the elapsed seconds truncated toward
zero (floor for nonnegative values, ceiling for negative ones). -/
def truncTowardZeroSeconds (startMs endMs : Int) : Int :=
  let q : ℚ := ((endMs - startMs : Int) : ℚ) / 1000
  if 0 ≤ q then ⌊q⌋ else ⌈q⌉

/-- A well-formed request whose `end_time` is 500 ms before `start_time`. -/
def negativeDurationReq : CreateRouteRequest :=
  { title := some "t", description := none,
    start_label := some "a", end_label := some "b",
    start_time := some 0, end_time := some (-500), tags := none,
    points := some [{ seq := 1, lat := 1, lng := 2, acc := none, time := "x" }] }

/-! ## Point ordering and accuracy persistence -/

/-- The request of the spec's concrete example: points submitted as
`[{seq: 2, ...}, {seq: 1, ...}]`. -/
def twoPointReq : CreateRouteRequest :=
  { title := some "t", description := none,
    start_label := some "a", end_label := some "b",
    start_time := some 0, end_time := some 60000, tags := none,
    points := some
      [{ seq := 2, lat := 1, lng := 2, acc := none, time := "t2" },
       { seq := 1, lat := 3, lng := 4, acc := none, time := "t1" }] }

/-- A default `RouteRow`, used only as an `Option.getD` fallback. -/
def defaultRouteRow : RouteRow :=
  { creator_id := none, title := "", description := none, start_label := "",
    end_label := "", start_lng := 0, start_lat := 0, end_lng := 0,
    end_lat := 0, start_time := 0, end_time := 0, duration_seconds := 0,
    distance_meters := 0 }

/-- Concrete points for the C10 witness: accuracies `0`, `2.5` and absent. -/
def accPoints : List RawPoint :=
  [{ seq := 1, lat := 1, lng := 2, acc := some 0, time := "t1" },
   { seq := 2, lat := 3, lng := 4, acc := some (5 / 2), time := "t2" },
   { seq := 3, lat := 5, lng := 6, acc := none, time := "t3" }]

/-! ## Votes and rating aggregation -/

/-- A row of the `votes` table. -/
structure VoteRow where
  route_id : String
  user_id : String
  vote_type : String
  context : String
deriving DecidableEq

/-- JavaScript `parseFloat(x.toFixed(2))`.  ECMA-262 `toFixed` first strips
the sign (step: if `x < 0`, set `s` to `"-"` and `x` to `−x`) and only then
picks the integer `n` minimising `|n/100 − x|`, ties to the larger `n`; on
the magnitude with the sign re-applied this rounds half away from zero:
`(-0.125).toFixed(2)` is `"-0.13"`. -/
def round2 (q : ℚ) : ℚ :=
  if q < 0 then -(((⌊-q * 100 + 1 / 2⌋ : ℤ) : ℚ) / 100)
  else ((⌊q * 100 + 1 / 2⌋ : ℤ) : ℚ) / 100

/-- Modelled from the claim's wording: rounding half-away-from-zero to two
decimal places. -/
def roundHalfAwayFromZero2 (q : ℚ) : ℚ :=
  if 0 ≤ q then ((⌊q * 100 + 1 / 2⌋ : ℤ) : ℚ) / 100
  else -(((⌊-q * 100 + 1 / 2⌋ : ℤ) : ℚ) / 100)

/-- The aggregate the vote-casting handler reports. -/
structure VoteTotals where
  vote_count : Nat
  upvotes : Nat
  downvotes : Nat
  avg_rating : ℚ
deriving DecidableEq

/-- The vote aggregation of the handlers: `vote_count = votes.length`,
up/down counts by filtering `vote_type`, and
`avg_rating = parseFloat(((up − down) / count).toFixed(2))` when the count is
positive, else `0`. -/
def aggregateVotes (votes : List VoteRow) : VoteTotals :=
  let vote_count := votes.length
  let upvotes := (votes.filter fun v => v.vote_type == "up").length
  let downvotes := (votes.filter fun v => v.vote_type == "down").length
  let avg_rating : ℚ :=
    if 0 < vote_count then
      round2 (((upvotes : ℚ) - (downvotes : ℚ)) / (vote_count : ℚ))
    else 0
  ⟨vote_count, upvotes, downvotes, avg_rating⟩

/-- 7 upvotes and 9 downvotes on the same route. -/
def sixteenVotes : List VoteRow :=
  (List.replicate 7 ⟨"r1", "u", "up", "safety"⟩) ++
    (List.replicate 9 ⟨"r1", "u", "down", "safety"⟩)

/-! ## `POST /routes/:id/vote` -/

/-- A row of the `routes` table, as read by the handlers (geography columns
already decoded; `route_tags` holds the joined tag names, `none` for a join
row whose tag or tag name is null). -/
structure RouteDbRow where
  id : String
  title : String
  start_label : String
  end_label : String
  distance_meters : ℚ
  created_at : Int
  is_active : Bool
  route_tags : List (Option String)
deriving DecidableEq

/-- The HTTP response of `POST /routes/:id/vote`. -/
inductive CastVoteResponse
  | missingFields
  | invalidVoteType
  | invalidContext
  | notFound
  | voteFailed
  | recorded (route_id : String) (vote_type : String) (context : String)
      (vote_count : Nat) (upvotes : Nat) (downvotes : Nat) (avg_rating : ℚ)
deriving DecidableEq

/-- Supabase `upsert` with `onConflict: 'route_id,user_id'`: replace the row
with the same `(route_id, user_id)` key, else append. -/
def upsertVote (votes : List VoteRow) (v : VoteRow) : List VoteRow :=
  if votes.any fun w => w.route_id == v.route_id && w.user_id == v.user_id then
    votes.map fun w =>
      if w.route_id == v.route_id && w.user_id == v.user_id then v else w
  else votes ++ [v]

/-- The `POST /routes/:id/vote` handler: returns the response and the votes
table after the request.  `insertOk` / `totalsOk` model the upsert and the
totals query succeeding. -/
def castVote (rid uid : String) (vt ctx : Option String)
    (routes : List RouteDbRow) (votes : List VoteRow)
    (insertOk totalsOk : Bool) : CastVoteResponse × List VoteRow :=
  if !(strTruthy vt) || !(strTruthy ctx) then (.missingFields, votes)
  else
    let vtS := vt.getD ""
    let ctxS := ctx.getD ""
    if !(["up", "down"].contains vtS) then (.invalidVoteType, votes)
    else if !(["safety", "efficiency", "scenery"].contains ctxS) then
      (.invalidContext, votes)
    else if (routes.find? fun r => r.id == rid && r.is_active).isNone then
      (.notFound, votes)
    else if !insertOk then (.voteFailed, votes)
    else
      let votes' := upsertVote votes ⟨rid, uid, vtS, ctxS⟩
      let routeVotes := votes'.filter fun v => v.route_id == rid
      let totals : Nat × Nat × Nat × ℚ :=
        if totalsOk then
          let vc := routeVotes.length
          let up := (routeVotes.filter fun v => v.vote_type == "up").length
          let dn := (routeVotes.filter fun v => v.vote_type == "down").length
          (vc, up, dn,
            if 0 < vc then round2 (((up : ℚ) - (dn : ℚ)) / (vc : ℚ)) else 0)
        else (0, 0, 0, 0)
      (.recorded rid vtS ctxS totals.1 totals.2.1 totals.2.2.1 totals.2.2.2,
        votes')

/-- The vote rows a given user holds on a given route. -/
def userRouteVoteRows (votes : List VoteRow) (rid uid : String) : List VoteRow :=
  votes.filter fun v => v.route_id == rid && v.user_id == uid

/-- Repeated casts: fold `castVote` (with all storage calls succeeding) over
a list of `(vote_type, context)` pairs. -/
def runCasts (rid uid : String) (routes : List RouteDbRow)
    (casts : List (String × String)) (votes : List VoteRow) : List VoteRow :=
  casts.foldl (fun vs c => (castVote rid uid (some c.1) (some c.2) routes vs
    true true).2) votes

/-- An active route row used in concrete vote scenarios. -/
def activeRoute : RouteDbRow :=
  { id := "r1", title := "T", start_label := "A", end_label := "B",
    distance_meters := 10, created_at := 0, is_active := true,
    route_tags := [] }

/-- An inactive (soft-deleted) route row. -/
def inactiveRoute : RouteDbRow :=
  { id := "r1", title := "T", start_label := "A", end_label := "B",
    distance_meters := 10, created_at := 0, is_active := false,
    route_tags := [] }

/-! ## `GET /routes` (feed ranking) -/

/-- A transformed route as built inside `GET /routes` (before the final
response strips `vote_count`). -/
structure TransformedRoute where
  id : String
  title : String
  start_label : String
  end_label : String
  distance_meters : ℚ
  avg_rating : ℚ
  tags : List String
  preview_polyline : Option String
  created_at : Int
  vote_count : Nat
deriving DecidableEq

/-- A response row of `GET /routes` (`vote_count` removed). -/
structure RouteSummary where
  id : String
  title : String
  start_label : String
  end_label : String
  distance_meters : ℚ
  avg_rating : ℚ
  tags : List String
  preview_polyline : Option String
  created_at : Int
deriving DecidableEq

/-- The handler's `route_tags.map(rt => rt.tags?.name).filter(Boolean)`: joined tag names
with null entries and empty strings dropped. -/
def filterTruthyTags (l : List (Option String)) : List String :=
  (l.filterMap id).filter fun s => !(s == "")

/-- The votes fetched for one route id. -/
def votesForRoute (votes : List VoteRow) (rid : String) : List VoteRow :=
  votes.filter fun v => v.route_id == rid

/-- The per-route transformation of `GET /routes`: per-route vote totals from
the batched votes, `avg_rating = parseFloat(((up − down)/total).toFixed(2))`
(0 without votes), joined tag names, `preview_polyline: null`. -/
def transformRoute (votesData : List VoteRow) (r : RouteDbRow) : TransformedRoute :=
  let vs := votesForRoute votesData r.id
  let up := (vs.filter fun v => v.vote_type == "up").length
  let down := (vs.filter fun v => v.vote_type == "down").length
  let total := vs.length
  let avgRating : ℚ :=
    if 0 < total then ((up : ℚ) - (down : ℚ)) / (total : ℚ) else 0
  { id := r.id, title := r.title, start_label := r.start_label,
    end_label := r.end_label, distance_meters := r.distance_meters,
    avg_rating := round2 avgRating, tags := filterTruthyTags r.route_tags,
    preview_polyline := none, created_at := r.created_at, vote_count := total }

/-- The tag filter of `GET /routes`: comma-split, trimmed, lower-cased
filter list, kept when the route's tag set intersects it (skipped when the
`tags` query value is absent or empty, i.e. falsy). -/
def tagFilterApply (tagsCsv : Option String) (l : List TransformedRoute) :
    List TransformedRoute :=
  match tagsCsv with
  | none => l
  | some s =>
    if s == "" then l
    else
      let tagArray := (s.splitOn ",").map fun t => t.trim.toLower
      l.filter fun r => r.tags.any fun tag => tagArray.contains tag.toLower

/-- The sort comparator of `GET /routes`, as a `≤`-style relation:
`popular` by vote count descending, `efficient` by distance ascending,
`recent` (and any unknown value) by `created_at` descending. -/
def sortKeyLe (sort : String) (a b : TransformedRoute) : Bool :=
  match sort with
  | "popular" => b.vote_count ≤ a.vote_count
  | "efficient" => a.distance_meters ≤ b.distance_meters
  | _ => b.created_at ≤ a.created_at

/-- Strip the temporary `vote_count` field for the response. -/
def stripVoteCount (t : TransformedRoute) : RouteSummary :=
  { id := t.id, title := t.title, start_label := t.start_label,
    end_label := t.end_label, distance_meters := t.distance_meters,
    avg_rating := t.avg_rating, tags := t.tags,
    preview_polyline := t.preview_polyline, created_at := t.created_at }

/-- The batched votes result as used by the handler: a query error is
ignored and treated as no votes. -/
def votesOf (votesRes : Except String (List VoteRow)) : List VoteRow :=
  match votesRes with
  | .ok vs => vs
  | .error _ => []

/-- The `data` array built by `GET /routes`: transform the fetched rows,
filter by tags, sort by the requested criterion, strip `vote_count`. -/
def listRoutesData (routes : List RouteDbRow)
    (votesRes : Except String (List VoteRow)) (tagsCsv : Option String)
    (sort : String) : List RouteSummary :=
  let votesData := votesOf votesRes
  let transformed := routes.map (transformRoute votesData)
  let filtered := tagFilterApply tagsCsv transformed
  let sorted := filtered.mergeSort (sortKeyLe sort)
  sorted.map stripVoteCount

/-- The HTTP response of `GET /routes`. -/
inductive ListRoutesResponse
  | fetchFailed (details : String)
  | ok (data : List RouteSummary) (count : Nat)
deriving DecidableEq

/-- The `GET /routes` handler: 500 only when the routes fetch itself fails;
a votes-fetch failure is ignored. -/
def listRoutes (routesRes : Except String (List RouteDbRow))
    (votesRes : Except String (List VoteRow)) (tagsCsv : Option String)
    (sort : String) : ListRoutesResponse :=
  match routesRes with
  | .error e => .fetchFailed e
  | .ok routes =>
    let d := listRoutesData routes votesRes tagsCsv sort
    .ok d d.length

/-! ## `GET /routes/:id` -/

/-- The errors the single-route fetch can report: `PGRST116` (no rows for
`.single()`) or any other storage error. -/
inductive FetchErr
  | noRows
  | other (msg : String)
deriving DecidableEq

/-- The row `GET /routes/:id` reads (`*, route_points(*),
route_tags(tags(name))`); scalar passthrough columns beyond these do not
affect the modelled behaviour and are represented by `id` and the nested
collections. -/
structure RouteDetailRow where
  id : String
  route_points : List RoutePointRow
  route_tags : List (Option String)
deriving DecidableEq

/-- A point of the `route_points` array in the `GET /routes/:id` response. -/
structure PointOut where
  seq : Int
  lat : ℚ
  lng : ℚ
  accuracy_meters : Option ℚ
  recorded_at : String
deriving DecidableEq

/-- The HTTP response of `GET /routes/:id`. -/
inductive GetRouteResponse
  | notFound (id : String)
  | fetchFailed (msg : String)
  | ok (route : RouteDetailRow) (avg_rating : ℚ) (vote_count : Nat)
      (tags : List String) (route_points : List PointOut)
deriving DecidableEq

/-- The `GET /routes/:id` handler: 404 on `PGRST116`, 500 on other fetch
errors; a votes-fetch failure leaves `avg_rating = 0` and `vote_count = 0`;
points are returned sorted by `sequence` and reshaped. -/
def getRoute (rid : String) (routeRes : Except FetchErr RouteDetailRow)
    (votesRes : Except String (List VoteRow)) : GetRouteResponse :=
  match routeRes with
  | .error .noRows => .notFound rid
  | .error (.other msg) => .fetchFailed msg
  | .ok route =>
    let totals : ℚ × Nat :=
      match votesRes with
      | .ok votes =>
        let voteCount := votes.length
        if 0 < voteCount then
          let up := (votes.filter fun v => v.vote_type == "up").length
          let dn := (votes.filter fun v => v.vote_type == "down").length
          (round2 (((up : ℚ) - (dn : ℚ)) / (voteCount : ℚ)), voteCount)
        else (0, voteCount)
      | .error _ => (0, 0)
    let tags := filterTruthyTags route.route_tags
    let pts := (route.route_points.mergeSort fun a b =>
        a.sequence ≤ b.sequence).map fun p =>
      (⟨p.sequence, p.lat, p.lng, p.accuracy_meters, p.recorded_at⟩ : PointOut)
    .ok route totals.1 totals.2 tags pts

/-- A fetched route row used in the C9 witness scenario. -/
def feedRoute : RouteDbRow :=
  { id := "r9", title := "T9", start_label := "A", end_label := "B",
    distance_meters := 42, created_at := 7, is_active := true,
    route_tags := [some "shade"] }

/-! ## Theorems -/

theorem haversineStep_eq_specPairDistance (p1 p2 : RawPoint) :
    haversineStep p1 p2 = specPairDistance p1 p2 := rfl

theorem haversineStep_self (p : RawPoint) : haversineStep p p = 0 := by
  unfold haversineStep
  simp only [sub_self, zero_mul, zero_div, Real.sin_zero, mul_zero, zero_add,
    add_zero, Real.sqrt_zero, sub_zero, Real.sqrt_one]
  have h1 : atan2 0 1 = 0 := by
    unfold atan2
    rw [if_pos one_pos]
    simp [Real.arctan_zero]
  rw [h1]
  ring

theorem calculateDistance_eq_spec (pts : List RawPoint) :
    calculateDistance pts = specTotalDistance pts := by
  induction pts with
  | nil => simp [calculateDistance, specTotalDistance]
  | cons p rest ih =>
    cases rest with
    | nil => simp [calculateDistance, specTotalDistance]
    | cons q rest' =>
      rw [calculateDistance, ih]
      simp [specTotalDistance, haversineStep_eq_specPairDistance]

/-- C1: the computed route distance is the Haversine sum of the spec, is zero
for fewer than two points, a coincident pair contributes zero, and the
persisted `distance_meters` is that sum over the sequence-ordered points. -/
theorem createRoute_distance_is_haversine_sum :
    (∀ pts : List RawPoint, calculateDistance pts = specTotalDistance pts) ∧
    calculateDistance [] = 0 ∧
    (∀ p : RawPoint, calculateDistance [p] = 0) ∧
    (∀ p : RawPoint, haversineStep p p = 0) ∧
    (∀ (userId : String) (req : CreateRouteRequest) (st : StorageBehavior)
       (row : RouteRow),
      (createRoute userId req st).routeCall = some row →
      row.distance_meters =
        specTotalDistance (sortPointsBySeq (req.points.getD []))) := by
  refine ⟨calculateDistance_eq_spec, rfl, fun p => rfl, haversineStep_self, ?_⟩
  intro userId req st row h
  rw [createRoute] at h
  by_cases hm : missingRequiredFields req
  · rw [if_pos hm] at h
    exact Option.noConfusion h
  · rw [if_neg hm] at h
    rcases hr : st.routeResult with er | rid <;> rw [hr] at h
    · simp only [Option.some.injEq] at h
      rw [← h]
      exact calculateDistance_eq_spec _
    · rcases hp : st.pointsResult with ep | u <;> rw [hp] at h <;>
      · simp only [Option.some.injEq] at h
        rw [← h]
        exact calculateDistance_eq_spec _

/-- Witness for C1 at the concrete two-point request. -/
theorem createRoute_distance_is_haversine_sum_witness :
    (createRoute "user-1" twoPointReq okStorage).routeCall =
      some ((createRoute "user-1" twoPointReq okStorage).routeCall.getD
        defaultRouteRow) ∧
    ((createRoute "user-1" twoPointReq okStorage).routeCall.getD
        defaultRouteRow).distance_meters =
      specTotalDistance (sortPointsBySeq (twoPointReq.points.getD [])) :=
  ⟨rfl,
   createRoute_distance_is_haversine_sum.2.2.2.2 "user-1" twoPointReq okStorage
     ((createRoute "user-1" twoPointReq okStorage).routeCall.getD defaultRouteRow)
     rfl⟩

/-- C2 counterexample: a point with latitude 200 (outside `[-90, 90]`) is not
rejected — the handler reaches storage and answers 201, so the claimed
out-of-range validation does not exist. -/
theorem createRoute_accepts_out_of_range_point :
    (createRoute "user-1" outOfRangeReq okStorage).response =
      .created "rid-1" ∧
    (createRoute "user-1" outOfRangeReq okStorage).routeCall.isSome = true := by
  exact ⟨rfl, rfl⟩

/-- C2 amended: `createRoute` answers the 400 missing-fields response exactly
when a top-level required field is absent or empty or the points array is
absent or empty (per-point fields and coordinate ranges are not validated),
and on that failure no storage call is made. -/
theorem createRoute_validation_characterization
    (userId : String) (req : CreateRouteRequest) (st : StorageBehavior) :
    ((createRoute userId req st).response =
       .missingFields
         ["title", "start_label", "end_label", "start_time", "end_time", "points"] ↔
     missingRequiredFields req = true) ∧
    (missingRequiredFields req = true →
      (createRoute userId req st).routeCall = none ∧
      (createRoute userId req st).pointsCall = none ∧
      (createRoute userId req st).tagsCall = none) ∧
    (missingRequiredFields req = true ↔
      (strTruthy req.title = false ∨ strTruthy req.start_label = false ∨
       strTruthy req.end_label = false ∨ req.start_time = none ∨
       req.end_time = none ∨ req.points = none ∨ req.points = some [])) := by
  refine ⟨⟨fun h => ?_, fun h => ?_⟩, fun h => ?_, ?_⟩
  · by_contra hm
    rw [Bool.not_eq_true] at hm
    rw [createRoute, if_neg (by simp [hm])] at h
    rcases hr : st.routeResult with e | rid <;> rw [hr] at h
    · exact CreateRouteResponse.noConfusion h
    · rcases hp : st.pointsResult with e | u <;> rw [hp] at h <;>
        exact CreateRouteResponse.noConfusion h
  · rw [createRoute, if_pos h]
  · rw [createRoute, if_pos h]
    exact ⟨rfl, rfl, rfl⟩
  · rw [missingRequiredFields]
    constructor
    · intro h
      simp only [Bool.or_eq_true, Bool.not_eq_true'] at h
      rcases h with ((((h | h) | h) | h) | h) | h
      · exact Or.inl h
      · exact Or.inr (Or.inl h)
      · exact Or.inr (Or.inr (Or.inl h))
      · exact Or.inr (Or.inr (Or.inr (Or.inl (Option.not_isSome_iff_eq_none.mp
          (by simp [h])))))
      · exact Or.inr (Or.inr (Or.inr (Or.inr (Or.inl
          (Option.not_isSome_iff_eq_none.mp (by simp [h]))))))
      · rcases hp : req.points with _ | ps
        · exact Or.inr (Or.inr (Or.inr (Or.inr (Or.inr (Or.inl rfl)))))
        · rw [hp] at h
          simp only [List.isEmpty_iff] at h
          exact Or.inr (Or.inr (Or.inr (Or.inr (Or.inr (Or.inr (by rw [h]))))))
    · intro h
      simp only [Bool.or_eq_true, Bool.not_eq_true']
      rcases h with h | h | h | h | h | h | h
      · exact Or.inl (Or.inl (Or.inl (Or.inl (Or.inl h))))
      · exact Or.inl (Or.inl (Or.inl (Or.inl (Or.inr h))))
      · exact Or.inl (Or.inl (Or.inl (Or.inr h)))
      · exact Or.inl (Or.inl (Or.inr (by simp [h])))
      · exact Or.inl (Or.inr (by simp [h]))
      · exact Or.inr (by simp [h])
      · exact Or.inr (by simp [h])

/-- Witness for the amended C2 statement at a concrete empty-points request. -/
theorem createRoute_validation_characterization_witness :
    missingRequiredFields emptyPointsReq = true ∧
    (createRoute "user-1" emptyPointsReq okStorage).routeCall = none ∧
    (createRoute "user-1" emptyPointsReq okStorage).pointsCall = none ∧
    (createRoute "user-1" emptyPointsReq okStorage).tagsCall = none :=
  ⟨by decide,
   (createRoute_validation_characterization "user-1" emptyPointsReq okStorage).2.1
     (by decide)⟩

/-- C5 counterexample: for `endTime − startTime = −500 ms` the handler
persists `Math.floor(−0.5) = −1`, while truncation toward zero gives `0` —
the persisted duration is not the truncated-toward-zero value. -/
theorem createRoute_duration_not_trunc_toward_zero :
    ((createRoute "user-1" negativeDurationReq okStorage).routeCall.map
       (fun r => r.duration_seconds)) = some (-1) ∧
    truncTowardZeroSeconds 0 (-500) = 0 ∧
    (-1 : Int) ≠ 0 := by
  refine ⟨?_, ?_, by decide⟩
  · have hd : durationSecondsOf 0 (-500) = -1 := by
      unfold durationSecondsOf
      norm_num
    rw [createRoute, if_neg (by decide)]
    show some (durationSecondsOf 0 (-500)) = some (-1)
    rw [hd]
  · unfold truncTowardZeroSeconds
    norm_num

/-- C5 amended: the persisted duration is
`Math.floor((endTime − startTime) / 1000)`, i.e. the greatest integer `k`
with `k·1000 ≤ endTime − startTime` (floor toward −∞, not truncation toward
zero); it is negative whenever `endTime < startTime`, and such a request is
not rejected (no 400 response arises once the required-fields check passes). -/
theorem createRoute_duration_is_floor
    (s e : Int) :
    durationSecondsOf s e * 1000 ≤ e - s ∧
    e - s < (durationSecondsOf s e + 1) * 1000 ∧
    (e < s → durationSecondsOf s e < 0) ∧
    (∀ (userId : String) (req : CreateRouteRequest) (st : StorageBehavior)
       (row : RouteRow),
      (createRoute userId req st).routeCall = some row →
      row.duration_seconds =
        durationSecondsOf (req.start_time.getD 0) (req.end_time.getD 0)) ∧
    (∀ (userId : String) (req : CreateRouteRequest) (st : StorageBehavior)
       (l : List String),
      missingRequiredFields req = false →
      (createRoute userId req st).response ≠ .missingFields l) := by
  have hq : ((e - s : Int) : ℚ) / 1000 * 1000 = ((e - s : Int) : ℚ) := by
    field_simp
  refine ⟨?_, ?_, ?_, ?_, ?_⟩
  · have h := Int.floor_le (((e - s : Int) : ℚ) / 1000)
    have h2 := mul_le_mul_of_nonneg_right h (by norm_num : (0 : ℚ) ≤ 1000)
    rw [hq] at h2
    unfold durationSecondsOf
    exact_mod_cast h2
  · have h := Int.lt_floor_add_one (((e - s : Int) : ℚ) / 1000)
    have h2 := mul_lt_mul_of_pos_right h (by norm_num : (0 : ℚ) < 1000)
    rw [hq] at h2
    unfold durationSecondsOf
    exact_mod_cast h2
  · intro hlt
    have hneg : ((e - s : Int) : ℚ) / 1000 < 0 := by
      apply div_neg_of_neg_of_pos
      · exact_mod_cast sub_neg.mpr hlt
      · norm_num
    unfold durationSecondsOf
    by_contra hc
    push_neg at hc
    exact absurd (Int.floor_nonneg.mp hc) (not_le.mpr hneg)
  · intro userId req st row h
    rw [createRoute] at h
    by_cases hm : missingRequiredFields req
    · rw [if_pos hm] at h
      exact Option.noConfusion h
    · rw [if_neg hm] at h
      rcases hr : st.routeResult with er | rid <;> rw [hr] at h
      · simp only [Option.some.injEq] at h
        rw [← h]
      · rcases hp : st.pointsResult with ep | u <;> rw [hp] at h <;>
          simp only [Option.some.injEq] at h <;> rw [← h]
  · intro userId req st l hm h
    rw [createRoute, if_neg (by simp [hm])] at h
    rcases hr : st.routeResult with er | rid <;> rw [hr] at h
    · exact CreateRouteResponse.noConfusion h
    · rcases hp : st.pointsResult with ep | u <;> rw [hp] at h <;>
        exact CreateRouteResponse.noConfusion h

/-- Witness for the amended C5 statement: the concrete negative-duration
request proceeds past validation and persists a negative floored duration. -/
theorem createRoute_duration_is_floor_witness :
    ((-500 : Int) < 0 ∧ durationSecondsOf 0 (-500) < 0) ∧
    (createRoute "user-1" negativeDurationReq okStorage).response ≠
      .missingFields
        ["title", "start_label", "end_label", "start_time", "end_time", "points"] :=
  ⟨⟨by decide, (createRoute_duration_is_floor 0 (-500)).2.2.1 (by decide)⟩,
   (createRoute_duration_is_floor 0 (-500)).2.2.2.2 "user-1" negativeDurationReq
     okStorage _ (by decide)⟩

theorem seqLe_trans (a b c : RawPoint) :
    (a.seq ≤ b.seq : Bool) = true → (b.seq ≤ c.seq : Bool) = true →
    (a.seq ≤ c.seq : Bool) = true := by
  simp only [decide_eq_true_eq]
  omega

theorem seqLe_total (a b : RawPoint) :
    ((a.seq ≤ b.seq : Bool) || (b.seq ≤ a.seq : Bool)) = true := by
  simp only [Bool.or_eq_true, decide_eq_true_eq]
  omega

theorem sortPointsBySeq_perm (pts : List RawPoint) :
    (sortPointsBySeq pts).Perm pts :=
  List.mergeSort_perm pts _

theorem sortPointsBySeq_pairwise (pts : List RawPoint) :
    (sortPointsBySeq pts).Pairwise fun a b => a.seq ≤ b.seq :=
  (List.sorted_mergeSort seqLe_trans seqLe_total pts).imp fun h =>
    of_decide_eq_true h

/-- Stability of the point sort: for every sequence value, the points
carrying it appear in the sorted output in their original submission order. -/
theorem sortPointsBySeq_filter_eq (pts : List RawPoint) (s : Int) :
    (sortPointsBySeq pts).filter (fun p => p.seq == s) =
      pts.filter (fun p => p.seq == s) := by
  have hpw : (pts.filter (fun p => p.seq == s)).Pairwise
      fun a b => (a.seq ≤ b.seq : Bool) = true := by
    apply List.pairwise_of_forall_mem_list
    intro a ha b hb
    have ha' := (List.mem_filter.mp ha).2
    have hb' := (List.mem_filter.mp hb).2
    simp only [beq_iff_eq] at ha' hb'
    simp only [decide_eq_true_eq]
    omega
  have hsub : (pts.filter (fun p => p.seq == s)).Sublist (sortPointsBySeq pts) :=
    List.sublist_mergeSort seqLe_trans seqLe_total hpw (List.filter_sublist pts)
  have hsub2 := hsub.filter (fun p => p.seq == s)
  rw [List.filter_eq_self.mpr (fun a ha => (List.mem_filter.mp ha).2)] at hsub2
  have hlen : ((sortPointsBySeq pts).filter (fun p => p.seq == s)).length =
      (pts.filter (fun p => p.seq == s)).length := by
    rw [← List.countP_eq_length_filter, ← List.countP_eq_length_filter]
    exact (sortPointsBySeq_perm pts).countP_eq _
  exact (hsub2.eq_of_length hlen.symm).symm

/-- Unfolding of `createRoute` on the success path: the persisted point rows
are the sorted points' rows and the anchors come from the first and last
sorted point. -/
theorem createRoute_calls_spec (userId : String) (req : CreateRouteRequest)
    (st : StorageBehavior) (rid : String) (rows : List RoutePointRow)
    (hp : (createRoute userId req st).pointsCall = some (rid, rows)) :
    missingRequiredFields req = false ∧
    rows = routePointsToInsert (sortPointsBySeq (req.points.getD [])) ∧
    (∀ row : RouteRow, (createRoute userId req st).routeCall = some row →
      row.start_lat = (sortPointsBySeq (req.points.getD [])).headI.lat ∧
      row.start_lng = (sortPointsBySeq (req.points.getD [])).headI.lng ∧
      row.end_lat = (sortPointsBySeq (req.points.getD [])).getLastI.lat ∧
      row.end_lng = (sortPointsBySeq (req.points.getD [])).getLastI.lng) := by
  by_cases hm : missingRequiredFields req
  · rw [createRoute, if_pos hm] at hp
    exact Option.noConfusion hp
  · rw [Bool.not_eq_true] at hm
    refine ⟨hm, ?_, ?_⟩
    · rw [createRoute, if_neg (by simp [hm])] at hp
      rcases hr : st.routeResult with er | rid' <;> rw [hr] at hp
      · exact Option.noConfusion hp
      · rcases hq : st.pointsResult with eq | u <;> rw [hq] at hp <;>
        · simp only [Option.some.injEq, Prod.mk.injEq] at hp
          exact hp.2.symm
    · intro row hrow
      rw [createRoute, if_neg (by simp [hm])] at hrow
      rcases hr : st.routeResult with er | rid' <;> rw [hr] at hrow
      · simp only [Option.some.injEq] at hrow
        rw [← hrow]
        exact ⟨rfl, rfl, rfl, rfl⟩
      · rcases hq : st.pointsResult with eq | u <;> rw [hq] at hrow <;>
        · simp only [Option.some.injEq] at hrow
          rw [← hrow]
          exact ⟨rfl, rfl, rfl, rfl⟩

/-- If validation passed, the submitted points list is nonempty. -/
theorem points_nonempty_of_valid (req : CreateRouteRequest)
    (hm : missingRequiredFields req = false) : req.points.getD [] ≠ [] := by
  rw [missingRequiredFields] at hm
  simp only [Bool.or_eq_false_iff] at hm
  rcases hp : req.points with _ | ps
  · rw [hp] at hm
    simp at hm
  · rw [hp] at hm
    intro h
    simp only [Option.getD_some] at h
    simp only [h, List.isEmpty_nil] at hm
    exact Bool.noConfusion hm.2

theorem head?_eq_headI (l : List RawPoint) (hl : l ≠ []) :
    l.head? = some l.headI := by
  cases l with
  | nil => exact absurd rfl hl
  | cons a t => rfl

theorem getLast?_eq_getLastI (l : List RawPoint) (hl : l ≠ []) :
    l.getLast? = some l.getLastI := by
  rw [List.getLastI_eq_getLast?]
  rcases ho : l.getLast? with _ | a
  · exact absurd (List.getLast?_eq_none_iff.mp ho) hl
  · rfl

theorem toRowPred_comp (s : Int) :
    ((fun r : RoutePointRow => r.sequence == s) ∘ toPointRow) =
    fun p : RawPoint => p.seq == s := rfl

/-- C6: persisted points are stably sorted ascending by the client `sequence`
(a permutation of the submission, non-decreasing sequence numbers, equal
sequence numbers kept in submission order), the first and last persisted
points supply the start and end anchors, and the concrete
`[{seq:2}, {seq:1}]` example persists `[1, 2]` with the `seq = 1` point as
start anchor. -/
theorem createRoute_persists_sorted_points :
    (∀ (userId : String) (req : CreateRouteRequest) (st : StorageBehavior)
       (rid : String) (rows : List RoutePointRow) (row : RouteRow),
      (createRoute userId req st).pointsCall = some (rid, rows) →
      (createRoute userId req st).routeCall = some row →
      (rows.map (fun r => r.sequence)).Pairwise (· ≤ ·) ∧
      rows.Perm (routePointsToInsert (req.points.getD [])) ∧
      (∀ s : Int, rows.filter (fun r => r.sequence == s) =
        (routePointsToInsert (req.points.getD [])).filter
          (fun r => r.sequence == s)) ∧
      rows.head?.map (fun r => (r.lat, r.lng)) =
        some (row.start_lat, row.start_lng) ∧
      rows.getLast?.map (fun r => (r.lat, r.lng)) =
        some (row.end_lat, row.end_lng)) ∧
    (createRoute "user-1" twoPointReq okStorage).pointsCall.map
      (fun c => c.2.map (fun r => r.sequence)) = some [1, 2] ∧
    (createRoute "user-1" twoPointReq okStorage).routeCall.map
      (fun r => (r.start_lat, r.start_lng)) = some ((3 : ℚ), (4 : ℚ)) := by
  refine ⟨?_, ?_, ?_⟩
  case refine_2 =>
    rw [createRoute, if_neg (by decide)]
    simp only [okStorage]
    simp [routePointsToInsert, sortPointsBySeq, List.mergeSort, twoPointReq,
      numOrNull, toPointRow]
  case refine_3 =>
    rw [createRoute, if_neg (by decide)]
    simp only [okStorage]
    simp [sortPointsBySeq, List.mergeSort, twoPointReq]
  intro userId req st rid rows row hp hr
  obtain ⟨hm, hrows, hanchor⟩ := createRoute_calls_spec userId req st rid rows hp
  obtain ⟨h1, h2, h3, h4⟩ := hanchor row hr
  set pts := req.points.getD [] with hpts
  have hne : sortPointsBySeq pts ≠ [] := by
    intro h
    have := congrArg List.length h
    rw [sortPointsBySeq, List.length_mergeSort] at this
    exact points_nonempty_of_valid req hm (List.eq_nil_of_length_eq_zero this)
  refine ⟨?_, ?_, ?_, ?_, ?_⟩
  · rw [hrows, routePointsToInsert]
    rw [List.map_map]
    exact (sortPointsBySeq_pairwise pts).map _ fun a b h => h
  · rw [hrows]
    exact (sortPointsBySeq_perm pts).map _
  · intro s
    rw [hrows, routePointsToInsert, routePointsToInsert,
      List.filter_map, List.filter_map, toRowPred_comp, sortPointsBySeq_filter_eq]
  · rw [hrows, routePointsToInsert, List.head?_map,
      head?_eq_headI _ hne, h1, h2]
    rfl
  · rw [hrows, routePointsToInsert, List.getLast?_map,
      getLast?_eq_getLastI _ hne, h3, h4]
    rfl

/-- Witness for C6 at the concrete two-point request. -/
theorem createRoute_persists_sorted_points_witness :
    ((createRoute "user-1" twoPointReq okStorage).pointsCall =
      some ("rid-1",
        routePointsToInsert (sortPointsBySeq (twoPointReq.points.getD [])))) ∧
    (((routePointsToInsert
        (sortPointsBySeq (twoPointReq.points.getD []))).map
          (fun r => r.sequence)).Pairwise (· ≤ ·)) :=
  ⟨rfl,
   (createRoute_persists_sorted_points.1 "user-1" twoPointReq okStorage "rid-1"
     (routePointsToInsert (sortPointsBySeq (twoPointReq.points.getD [])))
     ((createRoute "user-1" twoPointReq okStorage).routeCall.getD defaultRouteRow)
     rfl rfl).1⟩

/-- C10: a submitted point whose `acc` is `0` (or absent) is persisted with
`accuracy_meters = null`; the supplied accuracy survives only when truthy. -/
theorem createRoute_zero_accuracy_becomes_null :
    (∀ (userId : String) (req : CreateRouteRequest) (st : StorageBehavior)
       (rid : String) (rows : List RoutePointRow),
      (createRoute userId req st).pointsCall = some (rid, rows) →
      rows = routePointsToInsert (sortPointsBySeq (req.points.getD []))) ∧
    (∀ (pts : List RawPoint) (i : Nat) (p : RawPoint),
      pts[i]? = some p →
      ∃ r : RoutePointRow, (routePointsToInsert pts)[i]? = some r ∧
        (p.acc = some 0 → r.accuracy_meters = none) ∧
        (p.acc = none → r.accuracy_meters = none) ∧
        (∀ a : ℚ, p.acc = some a → a ≠ 0 → r.accuracy_meters = some a)) := by
  constructor
  · intro userId req st rid rows hp
    exact (createRoute_calls_spec userId req st rid rows hp).2.1
  · intro pts i p hi
    refine ⟨toPointRow p, ?_, ?_, ?_, ?_⟩
    · rw [routePointsToInsert, List.getElem?_map, hi]
      rfl
    · intro h
      simp [toPointRow, numOrNull, h]
    · intro h
      simp only [toPointRow, numOrNull, h]
    · intro a ha hne
      simp only [toPointRow, numOrNull, ha, if_neg hne]

/-- Witness for C10: the zero-accuracy point of `accPoints` is persisted with
a null accuracy. -/
theorem createRoute_zero_accuracy_becomes_null_witness :
    accPoints[0]? = some { seq := 1, lat := 1, lng := 2, acc := some 0, time := "t1" } ∧
    ∃ r : RoutePointRow, (routePointsToInsert accPoints)[0]? = some r ∧
      (({ seq := 1, lat := 1, lng := 2, acc := some 0, time := "t1" } : RawPoint).acc =
          some 0 → r.accuracy_meters = none) ∧
      (({ seq := 1, lat := 1, lng := 2, acc := some 0, time := "t1" } : RawPoint).acc =
          none → r.accuracy_meters = none) ∧
      (∀ a : ℚ, ({ seq := 1, lat := 1, lng := 2, acc := some 0, time := "t1" } : RawPoint).acc =
          some a → a ≠ 0 → r.accuracy_meters = some a) :=
  ⟨rfl, createRoute_zero_accuracy_becomes_null.2 accPoints 0
    { seq := 1, lat := 1, lng := 2, acc := some 0, time := "t1" } rfl⟩

theorem round2_le_one {q : ℚ} (h : q ≤ 1) : round2 q ≤ 1 := by
  rw [round2]
  rcases lt_or_ge q 0 with hneg | hpos
  · rw [if_pos hneg]
    have hy : (0 : ℚ) ≤ -q * 100 + 1 / 2 := by linarith
    have hfl : (0 : ℤ) ≤ ⌊-q * 100 + 1 / 2⌋ := Int.le_floor.mpr (by exact_mod_cast hy)
    have : (0 : ℚ) ≤ ((⌊-q * 100 + 1 / 2⌋ : ℤ) : ℚ) := by exact_mod_cast hfl
    linarith
  · rw [if_neg (not_lt.mpr hpos)]
    have hy : q * 100 + 1 / 2 < 101 := by linarith
    have hfl : ⌊q * 100 + 1 / 2⌋ < 101 := Int.floor_lt.mpr (by exact_mod_cast hy)
    have : ((⌊q * 100 + 1 / 2⌋ : ℤ) : ℚ) ≤ 100 := by
      exact_mod_cast Int.lt_add_one_iff.mp hfl
    linarith

theorem neg_one_le_round2 {q : ℚ} (h : -1 ≤ q) : -1 ≤ round2 q := by
  rw [round2]
  rcases lt_or_ge q 0 with hneg | hpos
  · rw [if_pos hneg]
    have hy : -q * 100 + 1 / 2 < 101 := by linarith
    have hfl : ⌊-q * 100 + 1 / 2⌋ < 101 := Int.floor_lt.mpr (by exact_mod_cast hy)
    have : ((⌊-q * 100 + 1 / 2⌋ : ℤ) : ℚ) ≤ 100 := by
      exact_mod_cast Int.lt_add_one_iff.mp hfl
    linarith
  · rw [if_neg (not_lt.mpr hpos)]
    have hy : (0 : ℚ) ≤ q * 100 + 1 / 2 := by linarith
    have hfl : (0 : ℤ) ≤ ⌊q * 100 + 1 / 2⌋ := Int.le_floor.mpr (by exact_mod_cast hy)
    have : (0 : ℚ) ≤ ((⌊q * 100 + 1 / 2⌋ : ℤ) : ℚ) := by exact_mod_cast hfl
    linarith

/-- The code's `toFixed`-based rounding coincides with half-away-from-zero
rounding to two decimals: both strip the sign and round the magnitude with
ties upward. -/
theorem round2_eq_roundHalfAwayFromZero2 (q : ℚ) :
    round2 q = roundHalfAwayFromZero2 q := by
  rw [round2, roundHalfAwayFromZero2]
  rcases lt_or_ge q 0 with h | h
  · rw [if_pos h, if_neg (not_le.mpr h)]
  · rw [if_neg (not_lt.mpr h), if_pos h]

/-- C4: `avgRating` is `0` with no votes, equals `(up − down)/total` rounded
half away from zero to two decimal places when votes exist, and always lies
in `[-1, 1]`. -/
theorem aggregateVotes_half_away_from_zero (votes : List VoteRow) :
    (votes = [] → (aggregateVotes votes).avg_rating = 0) ∧
    (votes ≠ [] →
      (aggregateVotes votes).avg_rating =
        roundHalfAwayFromZero2 ((((aggregateVotes votes).upvotes : ℚ) -
          ((aggregateVotes votes).downvotes : ℚ)) /
            ((aggregateVotes votes).vote_count : ℚ))) ∧
    -1 ≤ (aggregateVotes votes).avg_rating ∧
    (aggregateVotes votes).avg_rating ≤ 1 := by
  have hup : (votes.filter fun v => v.vote_type == "up").length ≤ votes.length :=
    List.length_filter_le _ _
  have hdn : (votes.filter fun v => v.vote_type == "down").length ≤ votes.length :=
    List.length_filter_le _ _
  rcases hv : votes with _ | ⟨w, ws⟩
  · refine ⟨fun _ => rfl, fun h => absurd rfl h, by norm_num [aggregateVotes],
      by norm_num [aggregateVotes]⟩
  · rw [← hv]
    have hpos : 0 < votes.length := by
      rw [hv]
      exact Nat.succ_pos _
    have havg : (aggregateVotes votes).avg_rating =
        round2 ((((votes.filter fun v => v.vote_type == "up").length : ℚ) -
          ((votes.filter fun v => v.vote_type == "down").length : ℚ)) /
            (votes.length : ℚ)) := by
      rw [aggregateVotes]
      simp only [if_pos hpos]
    have hq1 : (((votes.filter fun v => v.vote_type == "up").length : ℚ) -
        ((votes.filter fun v => v.vote_type == "down").length : ℚ)) /
          (votes.length : ℚ) ≤ 1 := by
      rw [div_le_one (by exact_mod_cast hpos)]
      have h1 : (((votes.filter fun v => v.vote_type == "up").length : ℚ)) ≤
          (votes.length : ℚ) := by exact_mod_cast hup
      have h2 : (0 : ℚ) ≤ ((votes.filter fun v => v.vote_type == "down").length : ℚ) := by
        positivity
      linarith
    have hq2 : -1 ≤ (((votes.filter fun v => v.vote_type == "up").length : ℚ) -
        ((votes.filter fun v => v.vote_type == "down").length : ℚ)) /
          (votes.length : ℚ) := by
      rw [le_div_iff₀ (by exact_mod_cast hpos)]
      have h1 : (((votes.filter fun v => v.vote_type == "down").length : ℚ)) ≤
          (votes.length : ℚ) := by exact_mod_cast hdn
      have h2 : (0 : ℚ) ≤ ((votes.filter fun v => v.vote_type == "up").length : ℚ) := by
        positivity
      linarith
    refine ⟨fun h => absurd h (by rw [hv]; exact List.cons_ne_nil w ws), fun _ => ?_,
      ?_, ?_⟩
    · rw [havg, ← round2_eq_roundHalfAwayFromZero2, aggregateVotes]
    · rw [havg]
      exact neg_one_le_round2 hq2
    · rw [havg]
      exact round2_le_one hq1

/-- Witness for C4 at the concrete 7-up / 9-down vote set (exact rating
`−1/8 = −0.125`, reported as `−0.13`). -/
theorem aggregateVotes_half_away_from_zero_witness :
    sixteenVotes ≠ [] ∧
    (aggregateVotes sixteenVotes).avg_rating =
      roundHalfAwayFromZero2 ((((aggregateVotes sixteenVotes).upvotes : ℚ) -
        ((aggregateVotes sixteenVotes).downvotes : ℚ)) /
          ((aggregateVotes sixteenVotes).vote_count : ℚ)) ∧
    -1 ≤ (aggregateVotes sixteenVotes).avg_rating ∧
    (aggregateVotes sixteenVotes).avg_rating ≤ 1 :=
  ⟨by decide, (aggregateVotes_half_away_from_zero sixteenVotes).2.1 (by decide),
    (aggregateVotes_half_away_from_zero sixteenVotes).2.2.1,
    (aggregateVotes_half_away_from_zero sixteenVotes).2.2.2⟩

theorem filter_map_upsert (v : VoteRow) :
    ∀ l : List VoteRow,
      ((l.map fun w =>
        if w.route_id == v.route_id && w.user_id == v.user_id then v else w).filter
          fun w => w.route_id == v.route_id && w.user_id == v.user_id) =
        List.replicate
          (l.countP fun w => w.route_id == v.route_id && w.user_id == v.user_id) v
  | [] => rfl
  | w :: ws => by
    by_cases h : (w.route_id == v.route_id && w.user_id == v.user_id) = true
    · simp only [List.map_cons, List.filter_cons, if_pos h, h, List.countP_cons,
        if_true]
      have hv : (v.route_id == v.route_id && v.user_id == v.user_id) = true := by
        simp
      simp only [hv, if_true, List.replicate_succ]
      rw [filter_map_upsert v ws]
    · rw [List.map_cons, if_neg h, List.filter_cons, if_neg h,
        filter_map_upsert v ws, List.countP_cons, if_neg h, add_zero]

theorem upsertVote_rows (votes : List VoteRow) (v : VoteRow)
    (h : (userRouteVoteRows votes v.route_id v.user_id).length ≤ 1) :
    userRouteVoteRows (upsertVote votes v) v.route_id v.user_id = [v] := by
  rw [upsertVote]
  by_cases ha : (votes.any fun w =>
      w.route_id == v.route_id && w.user_id == v.user_id) = true
  · rw [if_pos ha]
    rw [userRouteVoteRows, filter_map_upsert]
    have hpos : 0 < votes.countP fun w =>
        w.route_id == v.route_id && w.user_id == v.user_id :=
      List.countP_pos_iff.mpr (List.any_eq_true.mp ha)
    have hle : (votes.countP fun w =>
        w.route_id == v.route_id && w.user_id == v.user_id) ≤ 1 := by
      rw [List.countP_eq_length_filter]
      exact h
    have : (votes.countP fun w =>
        w.route_id == v.route_id && w.user_id == v.user_id) = 1 := by omega
    rw [this]
    rfl
  · rw [if_neg ha]
    rw [Bool.not_eq_true] at ha
    rw [userRouteVoteRows, List.filter_append]
    have hnil : (votes.filter fun w =>
        w.route_id == v.route_id && w.user_id == v.user_id) = [] := by
      rw [List.filter_eq_nil_iff]
      intro a hmem hpa
      exact absurd hpa (List.any_eq_false.mp ha a hmem)
    rw [hnil]
    simp

theorem castVote_updates_table (rid uid vt ctx : String)
    (routes : List RouteDbRow) (votes : List VoteRow) (tOk : Bool)
    (hvt : ["up", "down"].contains vt = true)
    (hctx : ["safety", "efficiency", "scenery"].contains ctx = true)
    (hroute : (routes.find? fun r => r.id == rid && r.is_active).isSome = true) :
    (castVote rid uid (some vt) (some ctx) routes votes true tOk).2 =
      upsertVote votes ⟨rid, uid, vt, ctx⟩ := by
  have hvt' : vt ≠ "" := by
    intro h
    rw [h] at hvt
    exact Bool.noConfusion hvt
  have hctx' : ctx ≠ "" := by
    intro h
    rw [h] at hctx
    exact Bool.noConfusion hctx
  rw [castVote]
  rw [if_neg (by simp [strTruthy, hvt', hctx'])]
  simp only [Option.getD_some]
  rw [if_neg (by rw [hvt]; decide), if_neg (by rw [hctx]; decide),
    if_neg (by simp [Option.isNone_iff_eq_none, Option.isSome_iff_ne_none.mp hroute]),
    if_neg (by simp)]

/-- C3: with an active route and valid enum values, casting `N ≥ 1` votes
starting from a table holding at most one `(user, route)` row leaves exactly
one row for that key, carrying the last cast's `vote_type` and `context`. -/
theorem castVote_at_most_one_row (rid uid : String) (routes : List RouteDbRow)
    (votes : List VoteRow) (casts : List (String × String))
    (hroute : (routes.find? fun r => r.id == rid && r.is_active).isSome = true)
    (hcasts : ∀ c ∈ casts, ["up", "down"].contains c.1 = true ∧
      ["safety", "efficiency", "scenery"].contains c.2 = true)
    (hinit : (userRouteVoteRows votes rid uid).length ≤ 1)
    (hne : casts ≠ []) :
    userRouteVoteRows (runCasts rid uid routes casts votes) rid uid =
      [⟨rid, uid, (casts.getLastD ("", "")).1, (casts.getLastD ("", "")).2⟩] ∧
    (userRouteVoteRows (runCasts rid uid routes casts votes) rid uid).length = 1 := by
  induction casts generalizing votes with
  | nil => exact absurd rfl hne
  | cons c cs ih =>
    obtain ⟨hc1, hc2⟩ := hcasts c (List.mem_cons_self c cs)
    have hstep : (castVote rid uid (some c.1) (some c.2) routes votes true true).2 =
        upsertVote votes ⟨rid, uid, c.1, c.2⟩ :=
      castVote_updates_table rid uid c.1 c.2 routes votes true hc1 hc2 hroute
    have hrows : userRouteVoteRows
        (upsertVote votes ⟨rid, uid, c.1, c.2⟩) rid uid =
        [⟨rid, uid, c.1, c.2⟩] :=
      upsertVote_rows votes ⟨rid, uid, c.1, c.2⟩ hinit
    rcases hcs : cs with _ | ⟨d, ds⟩
    · rw [runCasts, List.foldl_cons, hstep]
      rw [List.foldl_nil]
      refine ⟨?_, ?_⟩
      · rw [hrows]
        rfl
      · rw [hrows]
        rfl
    · rw [← hcs]
      have hcs' : cs ≠ [] := by
        rw [hcs]
        exact List.cons_ne_nil d ds
      have := ih (upsertVote votes ⟨rid, uid, c.1, c.2⟩)
        (fun e he => hcasts e (List.mem_cons_of_mem c he))
        (by rw [hrows]; exact le_refl 1) hcs'
      rw [runCasts, List.foldl_cons, hstep]
      rw [runCasts] at this
      refine ⟨?_, this.2⟩
      rw [this.1]
      have hlast : (c :: cs).getLastD ("", "") = cs.getLastD ("", "") := by
        rw [List.getLastD_cons, List.getLastD_eq_getLast?, List.getLastD_eq_getLast?]
        rcases ho : cs.getLast? with _ | x
        · exact absurd (List.getLast?_eq_none_iff.mp ho) hcs'
        · rfl
      rw [hlast]

/-- Witness for C3: two successive re-votes by the same user leave exactly
one row, carrying the second cast's values. -/
theorem castVote_at_most_one_row_witness :
    userRouteVoteRows
      (runCasts "r1" "u1" [activeRoute] [("up", "safety"), ("down", "scenery")] [])
      "r1" "u1" = [⟨"r1", "u1", "down", "scenery"⟩] ∧
    (userRouteVoteRows
      (runCasts "r1" "u1" [activeRoute] [("up", "safety"), ("down", "scenery")] [])
      "r1" "u1").length = 1 := by
  have h := castVote_at_most_one_row "r1" "u1" [activeRoute] []
    [("up", "safety"), ("down", "scenery")] (by decide) (by decide) (by decide)
    (by decide)
  exact ⟨h.1, h.2⟩

/-- C8 amended: with non-empty body values, an out-of-enum `vote_type` (and
then `context`) yields the invalid-field 400 naming that field; with valid
enums and no active route matching the id the result is 404.  All three
leave the votes table untouched and are independent of the storage
behaviour flags. -/
theorem castVote_enum_and_route_validation (rid uid : String)
    (vt ctx : Option String) (routes : List RouteDbRow) (votes : List VoteRow)
    (insertOk totalsOk : Bool) :
    (strTruthy vt = true → strTruthy ctx = true →
      ["up", "down"].contains (vt.getD "") = false →
      castVote rid uid vt ctx routes votes insertOk totalsOk =
        (.invalidVoteType, votes)) ∧
    (strTruthy vt = true → strTruthy ctx = true →
      ["up", "down"].contains (vt.getD "") = true →
      ["safety", "efficiency", "scenery"].contains (ctx.getD "") = false →
      castVote rid uid vt ctx routes votes insertOk totalsOk =
        (.invalidContext, votes)) ∧
    (strTruthy vt = true → strTruthy ctx = true →
      ["up", "down"].contains (vt.getD "") = true →
      ["safety", "efficiency", "scenery"].contains (ctx.getD "") = true →
      (routes.find? fun r => r.id == rid && r.is_active) = none →
      castVote rid uid vt ctx routes votes insertOk totalsOk =
        (.notFound, votes)) := by
  refine ⟨?_, ?_, ?_⟩
  · intro h1 h2 hvt
    rw [castVote, if_neg (by simp [h1, h2]), if_pos (by rw [hvt]; decide)]
  · intro h1 h2 hvt hctx
    rw [castVote, if_neg (by simp [h1, h2]), if_neg (by rw [hvt]; decide),
      if_pos (by rw [hctx]; decide)]
  · intro h1 h2 hvt hctx hfind
    rw [castVote, if_neg (by simp [h1, h2]), if_neg (by rw [hvt]; decide),
      if_neg (by rw [hctx]; decide), if_pos (by rw [hfind]; rfl)]

/-- Witness for C8: voting on an existing but `is_active = false` route with
valid enums yields 404 and writes nothing. -/
theorem castVote_enum_and_route_validation_witness :
    castVote "r1" "u1" (some "up") (some "safety") [inactiveRoute] [] true true =
      (.notFound, []) :=
  (castVote_enum_and_route_validation "r1" "u1" (some "up") (some "safety")
    [inactiveRoute] [] true true).2.2 (by decide) (by decide) (by decide)
    (by decide) (by decide)

/-- C8 counterexample: a supplied but empty `vote_type` — a value outside
`{up, down}` — is answered by the missing-required-fields 400, not by the
invalid-field error naming `vote_type`. -/
theorem castVote_empty_vote_type_not_invalid_field :
    castVote "r1" "u1" (some "") (some "safety") [activeRoute] [] true true =
      (.missingFields, []) ∧
    ("" ∉ ["up", "down"]) ∧
    CastVoteResponse.missingFields ≠ CastVoteResponse.invalidVoteType := by
  exact ⟨rfl, by decide, by decide⟩

theorem sortKeyLe_trans (s : String) (a b c : TransformedRoute) :
    sortKeyLe s a b = true → sortKeyLe s b c = true → sortKeyLe s a c = true := by
  unfold sortKeyLe
  split
  · simp only [decide_eq_true_eq]
    omega
  · simp only [decide_eq_true_eq]
    exact fun h1 h2 => le_trans h1 h2
  · simp only [decide_eq_true_eq]
    omega

theorem sortKeyLe_total (s : String) (a b : TransformedRoute) :
    (sortKeyLe s a b || sortKeyLe s b a) = true := by
  unfold sortKeyLe
  split
  · simp only [Bool.or_eq_true, decide_eq_true_eq]
    omega
  · simp only [Bool.or_eq_true, decide_eq_true_eq]
    exact le_total a.distance_meters b.distance_meters
  · simp only [Bool.or_eq_true, decide_eq_true_eq]
    omega

theorem mem_tagFilterApply {t : TransformedRoute} {c : Option String}
    {l : List TransformedRoute} (h : t ∈ tagFilterApply c l) : t ∈ l := by
  rcases c with _ | s
  · exact h
  · rw [tagFilterApply] at h
    by_cases hs : (s == "") = true
    · rw [if_pos hs] at h
      exact h
    · rw [if_neg hs] at h
      exact List.mem_of_mem_filter h

theorem vote_count_of_mem {votesData : List VoteRow} {routes : List RouteDbRow}
    {t : TransformedRoute} (h : t ∈ routes.map (transformRoute votesData)) :
    t.vote_count = (votesForRoute votesData t.id).length := by
  obtain ⟨r, _, rfl⟩ := List.mem_map.mp h
  rfl

/-- C7: `listRoutes` returns the feed in non-decreasing `distance_meters`
order for `sort = 'efficient'`, non-increasing total-vote-count order for
`sort = 'popular'`, and non-increasing `created_at` order for
`sort = 'recent'` (the default). -/
theorem listRoutes_sort_orders (routes : List RouteDbRow)
    (votesRes : Except String (List VoteRow)) (tagsCsv : Option String) :
    (listRoutesData routes votesRes tagsCsv "efficient").Pairwise
      (fun a b => a.distance_meters ≤ b.distance_meters) ∧
    (listRoutesData routes votesRes tagsCsv "popular").Pairwise
      (fun a b => (votesForRoute (votesOf votesRes) b.id).length ≤
        (votesForRoute (votesOf votesRes) a.id).length) ∧
    (listRoutesData routes votesRes tagsCsv "recent").Pairwise
      (fun a b => b.created_at ≤ a.created_at) := by
  refine ⟨?_, ?_, ?_⟩
  · rw [listRoutesData]
    apply List.Pairwise.map (S := fun a b : RouteSummary =>
      a.distance_meters ≤ b.distance_meters) stripVoteCount
    · intro a b hab
      exact hab
    · exact (List.sorted_mergeSort (sortKeyLe_trans "efficient")
        (sortKeyLe_total "efficient") _).imp fun h => of_decide_eq_true h
  · rw [listRoutesData]
    apply List.Pairwise.map (S := fun a b : RouteSummary =>
      (votesForRoute (votesOf votesRes) b.id).length ≤
        (votesForRoute (votesOf votesRes) a.id).length) stripVoteCount
    · intro a b hab
      exact hab
    · have hsorted := List.sorted_mergeSort (sortKeyLe_trans "popular")
        (sortKeyLe_total "popular")
        (tagFilterApply tagsCsv (routes.map (transformRoute (votesOf votesRes))))
      have hmem : ∀ t ∈ (tagFilterApply tagsCsv
          (routes.map (transformRoute (votesOf votesRes)))).mergeSort
            (sortKeyLe "popular"),
          t.vote_count = (votesForRoute (votesOf votesRes) t.id).length := by
        intro t ht
        exact vote_count_of_mem (mem_tagFilterApply (List.mem_mergeSort.mp ht))
      refine List.Pairwise.imp_of_mem ?_ hsorted
      intro a b ha hb hab
      have h1 := hmem a ha
      have h2 := hmem b hb
      have : b.vote_count ≤ a.vote_count := of_decide_eq_true hab
      rw [h1, h2] at this
      exact this
  · rw [listRoutesData]
    apply List.Pairwise.map (S := fun a b : RouteSummary =>
      b.created_at ≤ a.created_at) stripVoteCount
    · intro a b hab
      exact hab
    · exact (List.sorted_mergeSort (sortKeyLe_trans "recent")
        (sortKeyLe_total "recent") _).imp fun h => of_decide_eq_true h

/-- C9: a failed votes query is swallowed: `GET /routes` still answers 200
with every route rated 0 (and counted as 0 votes for `popular` sorting), and
`GET /routes/:id` still answers 200 with `avg_rating = 0`, `vote_count = 0`. -/
theorem votes_query_failure_degrades_to_zero :
    (∀ (routes : List RouteDbRow) (e : String) (tagsCsv : Option String)
       (sort : String),
      listRoutes (.ok routes) (.error e) tagsCsv sort =
        .ok (listRoutesData routes (.error e) tagsCsv sort)
          (listRoutesData routes (.error e) tagsCsv sort).length ∧
      (∀ r ∈ listRoutesData routes (.error e) tagsCsv sort, r.avg_rating = 0) ∧
      (∀ t ∈ tagFilterApply tagsCsv (routes.map (transformRoute (votesOf
          (.error e)))), t.vote_count = 0)) ∧
    (∀ (rid : String) (route : RouteDetailRow) (e : String),
      getRoute rid (.ok route) (.error e) =
        .ok route 0 0 (filterTruthyTags route.route_tags)
          ((route.route_points.mergeSort fun a b =>
            a.sequence ≤ b.sequence).map fun p =>
            (⟨p.sequence, p.lat, p.lng, p.accuracy_meters, p.recorded_at⟩ :
              PointOut))) := by
  have hzero : ∀ r : RouteDbRow, (transformRoute [] r).avg_rating = 0 ∧
      (transformRoute [] r).vote_count = 0 := by
    intro r
    constructor
    · show round2 (if 0 < (votesForRoute [] r.id).length then _ else 0) = 0
      rw [votesForRoute]
      norm_num [round2]
    · rfl
  refine ⟨?_, ?_⟩
  · intro routes e tagsCsv sort
    refine ⟨rfl, ?_, ?_⟩
    · intro r hr
      rw [listRoutesData] at hr
      obtain ⟨t, ht, rfl⟩ := List.mem_map.mp hr
      have ht' : t ∈ routes.map (transformRoute (votesOf (.error e))) :=
        mem_tagFilterApply (List.mem_mergeSort.mp ht)
      obtain ⟨r', _, rfl⟩ := List.mem_map.mp ht'
      exact (hzero r').1
    · intro t ht
      obtain ⟨r', _, rfl⟩ := List.mem_map.mp (mem_tagFilterApply ht)
      exact (hzero r').2
  · intro rid route e
    rfl

/-- Witness for C9: with the batched votes query failing, the single
returned route carries `avg_rating = 0`. -/
theorem votes_query_failure_degrades_to_zero_witness :
    (stripVoteCount (transformRoute [] feedRoute) ∈
      listRoutesData [feedRoute] (.error "boom") none "recent") ∧
    (stripVoteCount (transformRoute [] feedRoute)).avg_rating = 0 :=
  ⟨by simp [listRoutesData, tagFilterApply, List.mergeSort, votesOf],
   (votes_query_failure_degrades_to_zero.1 [feedRoute] "boom" none "recent").2.1
     (stripVoteCount (transformRoute [] feedRoute))
     (by simp [listRoutesData, tagFilterApply, List.mergeSort, votesOf])⟩

end ViaBackend
